import Mathlib

/-
  Shallow embedding of the date-selection prompt state machine of this
  repository (src/inquire/src/prompts/dateselect/prompt.rs), together with
  the calendar-date model it relies on (chrono::NaiveDate semantics for the
  operations the prompt uses: lexicographic ordering on year/month/day,
  day-duration addition on the proleptic Gregorian calendar, and the
  with_month0 / with_year partial field updates that fail on an invalid
  resulting date).
-/

namespace Spec2Proof

/-- Calendar date in the style of chrono's NaiveDate: proleptic Gregorian
year (modelled as an unbounded integer; the i32-range limits of chrono are
irrelevant to the behaviour under study), with month (1-12) and day-of-month
fields. chrono stores (year, ordinal) internally; for valid dates its
derived order coincides with the lexicographic (year, month, day) order,
which is what we model. -/
structure NaiveDate where
  year : Int
  month : Nat
  day : Nat
deriving DecidableEq, Repr

/-- Gregorian leap-year rule, as used by chrono for date validity. The Rust
remainder on i32 is truncated and Lean's `%` on Int is Euclidean, but both
are zero exactly on multiples, which is all these tests use. -/
def isLeap (y : Int) : Bool :=
  decide (y % 4 = 0) && (decide (y % 100 ≠ 0) || decide (y % 400 = 0))

/-- Number of days of month `m` (1-12) of year `y`. -/
def daysInMonth (y : Int) (m : Nat) : Nat :=
  if m = 2 then (if isLeap y then 29 else 28)
  else if m = 4 ∨ m = 6 ∨ m = 9 ∨ m = 11 then 30
  else 31

/-- chrono's smallest representable year (`i32::MIN >> 13`). -/
def MIN_YEAR : Int := -262144

/-- chrono's largest representable year (`i32::MAX >> 13`). -/
def MAX_YEAR : Int := 262143

/-- Validity of a year/month/day triple: the dates chrono can represent,
including the representable-year range `MIN_YEAR..=MAX_YEAR` that chrono's
constructors (`from_ymd_opt`, `from_mdf`) enforce. -/
def isValidYMD (y : Int) (m : Nat) (d : Nat) : Bool :=
  decide (MIN_YEAR ≤ y) && decide (y ≤ MAX_YEAR) &&
    decide (1 ≤ m) && decide (m ≤ 12) && decide (1 ≤ d) && decide (d ≤ daysInMonth y m)

/-- A `NaiveDate` record that denotes an actual calendar date. -/
def NaiveDate.Valid (d : NaiveDate) : Prop :=
  isValidYMD d.year d.month d.day = true

/-- chrono `Datelike::with_month0`: replace the month (given 0-based) and
return `None` when the resulting date is invalid. -/
def NaiveDate.with_month0 (d : NaiveDate) (m0 : Nat) : Option NaiveDate :=
  let c : NaiveDate := { d with month := m0 + 1 }
  if isValidYMD c.year c.month c.day then some c else none

/-- chrono `Datelike::with_year`: replace the year and return `None` when
the resulting date is invalid (e.g. Feb 29 of a non-leap year, or a year
outside the representable range, both checked through `from_mdf`). -/
def NaiveDate.with_year (d : NaiveDate) (y : Int) : Option NaiveDate :=
  let c : NaiveDate := { d with year := y }
  if isValidYMD c.year c.month c.day then some c else none

/-- The (non-strict) order on dates: lexicographic on (year, month, day),
matching chrono's `Ord` on valid dates. -/
def NaiveDate.leb (a b : NaiveDate) : Bool :=
  decide (a.year < b.year) ||
    (decide (a.year = b.year) &&
      (decide (a.month < b.month) ||
        (decide (a.month = b.month) && decide (a.day ≤ b.day))))

/-- Strict order on dates. -/
def NaiveDate.ltb (a b : NaiveDate) : Bool :=
  a.leb b && !(decide (a = b))

/-- Rust `std::cmp::max`: returns the second argument when equal. -/
def dateMax (a b : NaiveDate) : NaiveDate :=
  if a.leb b then b else a

/-- Rust `std::cmp::min`: returns the first argument when equal. -/
def dateMin (a b : NaiveDate) : NaiveDate :=
  if b.ltb a then b else a

/-- Days since 1970-01-01 of a year/month/day triple, on the proleptic
Gregorian calendar (Hinnant's civil-calendar algorithm; all intermediate
divisions are of nonnegative values, written with floor division). -/
def toDays (y : Int) (m : Nat) (d : Nat) : Int :=
  let yAdj : Int := if m ≤ 2 then y - 1 else y
  let era : Int := yAdj.fdiv 400
  let yoe : Int := yAdj - era * 400
  let mp : Int := if 2 < m then (m : Int) - 3 else (m : Int) + 9
  let doy : Int := (153 * mp + 2).fdiv 5 + (d : Int) - 1
  let doe : Int := yoe * 365 + yoe.fdiv 4 - yoe.fdiv 100 + doy
  era * 146097 + doe - 719468

/-- Inverse of `toDays`: the date a number of days since 1970-01-01 falls
on (Hinnant's civil-calendar algorithm). -/
def ofDays (z0 : Int) : NaiveDate :=
  let z : Int := z0 + 719468
  let era : Int := z.fdiv 146097
  let doe : Int := z - era * 146097
  let yoe : Int := (doe - doe.fdiv 1460 + doe.fdiv 36524 - doe.fdiv 146096).fdiv 365
  let y : Int := yoe + era * 400
  let doy : Int := doe - (365 * yoe + yoe.fdiv 4 - yoe.fdiv 100)
  let mp : Int := (5 * doy + 2).fdiv 153
  let dd : Int := doy - (153 * mp + 2).fdiv 5 + 1
  let mm : Int := if mp < 10 then mp + 3 else mp - 9
  { year := if mm ≤ 2 then y + 1 else y, month := mm.toNat, day := dd.toNat }

/-- chrono `NaiveDate + Duration` restricted to whole days, which is the
only way the prompt uses it (`Duration::days`, `Duration::weeks`). -/
def NaiveDate.addDays (d : NaiveDate) (n : Int) : NaiveDate :=
  ofDays (toDays d.year d.month d.day + n)

/-- Day of week of a date: 0 is Sunday (1970-01-01 was a Thursday). Used
only by the example validators below. -/
def weekdayNum (d : NaiveDate) : Int :=
  (toDays d.year d.month d.day + 4) % 7

/-- Result classification of handling one action (`ActionResult` of
src/inquire/src/prompts/prompt.rs): no visible change, needs redraw, or
ready to submit. -/
inductive ActionResult where
  | Clean
  | NeedsRedraw
  | Submit
deriving DecidableEq, Repr

/-- Outcome of one validator (`Validation` of the validator module). -/
inductive Validation where
  | Valid
  | Invalid (msg : String)
deriving DecidableEq, Repr

/-- The error cases of `InquireError` that the date-select prompt can
produce: an invalid configuration at construction, or a custom validator
error. Error messages are modelled as strings. -/
inductive InquireError where
  | InvalidConfiguration (msg : String)
  | Custom (err : String)
deriving DecidableEq, Repr

/-- Annotation of a marked date (`DateInfo`): whether the entry may be
deleted, and free-form detail text. -/
structure DateInfo where
  deletable : Bool
  details : String
deriving DecidableEq, Repr

/-- The marked-date index (a `HashMap<NaiveDate, DateInfo>` in the source),
modelled as an association list with the date as key. -/
abbrev MarkedDates := List (NaiveDate × DateInfo)

/-- Lookup in the marked-date index (`HashMap::get`). -/
def lookupMarked (idx : MarkedDates) (d : NaiveDate) : Option DateInfo :=
  (idx.find? (fun p => p.fst = d)).map Prod.snd

/-- Modelled from the spec: the helper `crate::utils::marked_dates_contains`
is not part of the provided sources; per the spec a delete request is "only
honored when the cursor date exists in the marked-date index", so the helper
tests membership of the date in the optional index. -/
def marked_dates_contains (d : NaiveDate) (m : Option MarkedDates) : Bool :=
  match m with
  | none => false
  | some idx => (lookupMarked idx d).isSome

/-- A date validator: `Result<Validation, CustomUserError>` with the custom
error modelled as a string. -/
abbrev DateValidator := NaiveDate → Except String Validation

/-- Semantic actions of the date-select prompt. Modelled from the spec:
the `DateSelectPromptAction` enumeration's own file is not among the
provided sources; its variants are those consumed by
`DateSelectPrompt::handle` and listed by the spec's action enumeration. -/
inductive DateSelectPromptAction where
  | GoToPrevWeek
  | GoToNextWeek
  | GoToPrevDay
  | GoToNextDay
  | GoToPrevYear
  | GoToNextYear
  | GoToPrevMonth
  | GoToNextMonth
  | Delete
  | ConfirmDelete
  | CancelDelete
deriving DecidableEq, Repr

/-- The per-session configuration of the date-select prompt, restricted to
the fields `DateSelectPrompt` reads during state transitions. -/
structure DateSelectConfig where
  min_date : Option NaiveDate
  max_date : Option NaiveDate
deriving DecidableEq, Repr

/-- The caller-supplied prompt specification (`DateSelect`), restricted to
the fields `DateSelectPrompt::new` consumes. -/
structure DateSelect where
  message : String
  starting_date : NaiveDate
  min_date : Option NaiveDate
  max_date : Option NaiveDate
  help_message : Option String
  validators : List DateValidator
  marked_dates : Option MarkedDates

/-- Mutable state of one date-select session (`DateSelectPrompt`). -/
structure DateSelectPrompt where
  message : String
  config : DateSelectConfig
  current_date : NaiveDate
  help_message : Option String
  validators : List DateValidator
  marked_dates : Option MarkedDates
  error : Option String
  deletion_requested : Bool
  to_delete : Bool

/-- The output of a successful submission (`DateOutput`). -/
structure DateOutput where
  date : NaiveDate
  to_delete : Bool
deriving DecidableEq, Repr

/-- `DateSelectPrompt::new`: reject a starting date outside the declared
bounds (Rust `min_date > starting_date` is written here as
`starting_date < min_date`, and symmetrically for the max bound), else
build the initial state. -/
def DateSelectPrompt.new (so : DateSelect) : Except InquireError DateSelectPrompt :=
  if (match so.min_date with
      | some min_date => so.starting_date.ltb min_date
      | none => false) then
    Except.error (InquireError.InvalidConfiguration
      "Min date can not be greater than starting date")
  else if (match so.max_date with
      | some max_date => max_date.ltb so.starting_date
      | none => false) then
    Except.error (InquireError.InvalidConfiguration
      "Max date can not be smaller than starting date")
  else
    Except.ok
      { message := so.message
        config := { min_date := so.min_date, max_date := so.max_date }
        current_date := so.starting_date
        help_message := so.help_message
        validators := so.validators
        marked_dates := so.marked_dates
        error := none
        deletion_requested := false
        to_delete := false }

/-- Left-pad a number with zeros, for the date display format. -/
def padZeros (n : Nat) (width : Nat) : String :=
  let s := toString n
  (List.replicate (width - s.length) '0').asString ++ s

/-- chrono's `Display` for `NaiveDate` (ISO 8601 `%Y-%m-%d`). -/
def dateToString (d : NaiveDate) : String :=
  (if d.year < 0 then "-" ++ padZeros d.year.natAbs 4 else padZeros d.year.toNat 4)
    ++ "-" ++ padZeros d.month 2 ++ "-" ++ padZeros d.day 2

/-- The yes/no confirmation message installed by a honored delete request,
with the cursor date embedded. -/
def confirmationMessage (d : NaiveDate) : String :=
  "Are you sure you want to delete logs for date: " ++ dateToString d ++ "? [y/n]"

/-- `DateSelectPrompt::request_deletion`. The source's
`marked_dates.unwrap().get(..).unwrap().deletable` only runs under the
containment guard; its partiality is modelled by a default that is never
read. -/
def DateSelectPrompt.request_deletion (s : DateSelectPrompt) :
    DateSelectPrompt × ActionResult :=
  if marked_dates_contains s.current_date s.marked_dates &&
      ((lookupMarked (s.marked_dates.getD []) s.current_date).map
        DateInfo.deletable).getD false then
    ({ s with
        deletion_requested := true
        error := some (confirmationMessage s.current_date) },
      ActionResult.NeedsRedraw)
  else
    (s, ActionResult.Clean)

/-- `DateSelectPrompt::update_date`: a candidate equal to the cursor is a
no-op reported as `Clean`; otherwise the cursor is set to the candidate and
then clamped to the configured bounds, and `NeedsRedraw` is reported. -/
def DateSelectPrompt.update_date (s : DateSelectPrompt) (new_date : NaiveDate) :
    DateSelectPrompt × ActionResult :=
  if s.current_date = new_date then
    (s, ActionResult.Clean)
  else
    let d1 := new_date
    let d2 := match s.config.min_date with
      | some min_date => dateMax d1 min_date
      | none => d1
    let d3 := match s.config.max_date with
      | some max_date => dateMin d2 max_date
      | none => d2
    ({ s with current_date := d3 }, ActionResult.NeedsRedraw)

/-- `DateSelectPrompt::shift_date`: add a whole-day duration to the cursor
and update. -/
def DateSelectPrompt.shift_date (s : DateSelectPrompt) (days : Int) :
    DateSelectPrompt × ActionResult :=
  s.update_date (s.current_date.addDays days)

/-- `DateSelectPrompt::shift_months`. Rust `/` and `%` on i32 truncate
toward zero, which is `Int.tdiv` / `Int.tmod`. `month0()` is the 0-based
month cast to i32, and the final 0-based month is cast back to u32. -/
def DateSelectPrompt.shift_months (s : DateSelectPrompt) (qty : Int) :
    DateSelectPrompt × ActionResult :=
  let date := s.current_date
  let years := qty.tdiv 12
  let months := qty.tmod 12
  let new_year := date.year + years
  let cur_month : Int := (date.month : Int) - 1
  let nm0 := (cur_month + months).tmod 12
  let new_month := if nm0 < 0 then nm0 + 12 else nm0
  let new_date := (date.with_month0 new_month.toNat).bind
    (fun d2 => d2.with_year new_year)
  match new_date with
  | some nd => s.update_date nd
  | none => (s, ActionResult.Clean)

/-- The validator loop of `DateSelectPrompt::validate_current_answer`:
first `Invalid` short-circuits; a custom validator error becomes
`InquireError::Custom` immediately. -/
def validateList (validators : List DateValidator) (d : NaiveDate) :
    Except InquireError Validation :=
  match validators with
  | [] => Except.ok Validation.Valid
  | v :: rest =>
    match v d with
    | Except.ok Validation.Valid => validateList rest d
    | Except.ok (Validation.Invalid msg) => Except.ok (Validation.Invalid msg)
    | Except.error err => Except.error (InquireError.Custom err)

/-- `DateSelectPrompt::cur_answer`. -/
def DateSelectPrompt.cur_answer (s : DateSelectPrompt) : NaiveDate :=
  s.current_date

/-- `DateSelectPrompt::validate_current_answer`. -/
def DateSelectPrompt.validate_current_answer (s : DateSelectPrompt) :
    Except InquireError Validation :=
  validateList s.validators s.cur_answer

/-- `DateSelectPrompt::submit`: validate the cursor date; `Valid` yields an
output carrying the date and the delete-intent flag, `Invalid` stores the
message as the current error and yields no answer, a custom error
propagates. -/
def DateSelectPrompt.submit (s : DateSelectPrompt) :
    Except InquireError (DateSelectPrompt × Option DateOutput) :=
  match s.validate_current_answer with
  | Except.error e => Except.error e
  | Except.ok Validation.Valid =>
      Except.ok (s, some { date := s.cur_answer, to_delete := s.to_delete })
  | Except.ok (Validation.Invalid msg) =>
      Except.ok ({ s with error := some msg }, none)

/-- The action dispatch table of `DateSelectPrompt::handle` (the `match` on
the action); the wildcard arm covers `ConfirmDelete` and `CancelDelete`
reaching it outside the pending branch. `Duration::weeks` is 7 days. -/
def DateSelectPrompt.handleInner (s : DateSelectPrompt)
    (action : DateSelectPromptAction) : DateSelectPrompt × ActionResult :=
  match action with
  | DateSelectPromptAction.GoToPrevWeek => s.shift_date (-7)
  | DateSelectPromptAction.GoToNextWeek => s.shift_date 7
  | DateSelectPromptAction.GoToPrevDay => s.shift_date (-1)
  | DateSelectPromptAction.GoToNextDay => s.shift_date 1
  | DateSelectPromptAction.GoToPrevYear => s.shift_months (-12)
  | DateSelectPromptAction.GoToNextYear => s.shift_months 12
  | DateSelectPromptAction.GoToPrevMonth => s.shift_months (-1)
  | DateSelectPromptAction.GoToNextMonth => s.shift_months 1
  | DateSelectPromptAction.Delete => s.request_deletion
  | _ => (s, ActionResult.Clean)

/-- `DateSelectPrompt::handle`. While a deletion confirmation is pending the
error and the pending flag are cleared first; `ConfirmDelete` then marks for
deletion and submits, `CancelDelete` just redraws, and any other action
falls through to the normal dispatch (on the cleared state). The source
always returns `Ok`. -/
def DateSelectPrompt.handle (s : DateSelectPrompt)
    (action : DateSelectPromptAction) :
    Except InquireError (DateSelectPrompt × ActionResult) :=
  if s.deletion_requested then
    let s1 := { s with error := none, deletion_requested := false }
    if action = DateSelectPromptAction.ConfirmDelete then
      Except.ok ({ s1 with to_delete := true }, ActionResult.Submit)
    else if action = DateSelectPromptAction.CancelDelete then
      Except.ok (s1, ActionResult.NeedsRedraw)
    else
      Except.ok (s1.handleInner action)
  else
    Except.ok (s.handleInner action)

/-- The state after handling one action (the driver keeps the returned
state; `handle` never returns an error). -/
def stepState (s : DateSelectPrompt) (a : DateSelectPromptAction) :
    DateSelectPrompt :=
  match s.handle a with
  | Except.ok (s2, _) => s2
  | Except.error _ => s

/-- The state after handling a sequence of actions. -/
def runActions (s : DateSelectPrompt) (actions : List DateSelectPromptAction) :
    DateSelectPrompt :=
  actions.foldl stepState s

/-- The cursor satisfies whichever bounds are configured. -/
def boundsSatisfied (s : DateSelectPrompt) : Bool :=
  (match s.config.min_date with
   | some m => m.leb s.current_date
   | none => true) &&
  (match s.config.max_date with
   | some m => s.current_date.leb m
   | none => true)

/-- When both bounds are configured, the min bound is at most the max
bound. -/
def configOrdered (s : DateSelectPrompt) : Bool :=
  match s.config.min_date, s.config.max_date with
  | some m, some mx => m.leb mx
  | _, _ => true

/-- The starting date lies outside the declared bounds (exactly the two
rejection conditions of `DateSelectPrompt::new`). -/
def outOfBoundsStart (so : DateSelect) : Bool :=
  (match so.min_date with
   | some m => so.starting_date.ltb m
   | none => false) ||
  (match so.max_date with
   | some mx => mx.ltb so.starting_date
   | none => false)

/-- The condition under which `request_deletion` honors the request: the
cursor date is in the marked-date index with a deletable annotation. -/
def deletionAllowed (s : DateSelectPrompt) : Bool :=
  marked_dates_contains s.current_date s.marked_dates &&
    ((lookupMarked (s.marked_dates.getD []) s.current_date).map
      DateInfo.deletable).getD false

/-- Shorthand date constructor. -/
def mkDate (y : Int) (m d : Nat) : NaiveDate :=
  { year := y, month := m, day := d }

/-- A prompt state with no bounds, no validators and no marked dates. -/
def baseState (d : NaiveDate) : DateSelectPrompt :=
  { message := ""
    config := { min_date := none, max_date := none }
    current_date := d
    help_message := none
    validators := []
    marked_dates := none
    error := none
    deletion_requested := false
    to_delete := false }

/-- A state in which a deletion confirmation is pending. -/
def pendingEx : DateSelectPrompt :=
  { baseState (mkDate 2023 6 15) with
      deletion_requested := true
      error := some "pending confirmation" }

/-- A bounded state whose cursor sits exactly at the max bound. -/
def atMaxState : DateSelectPrompt :=
  { baseState (mkDate 2023 12 31) with
      config := { min_date := some (mkDate 2023 1 1)
                  max_date := some (mkDate 2023 12 31) } }

/-- The specification of the clamping scenario: 2023-06-15 between
2023-01-01 and 2023-12-31. -/
def soBounded : DateSelect :=
  { message := ""
    starting_date := mkDate 2023 6 15
    min_date := some (mkDate 2023 1 1)
    max_date := some (mkDate 2023 12 31)
    help_message := none
    validators := []
    marked_dates := none }

/-- The state `DateSelectPrompt.new soBounded` constructs. -/
def sBounded : DateSelectPrompt :=
  { message := ""
    config := { min_date := some (mkDate 2023 1 1)
                max_date := some (mkDate 2023 12 31) }
    current_date := mkDate 2023 6 15
    help_message := none
    validators := []
    marked_dates := none
    error := none
    deletion_requested := false
    to_delete := false }

/-- A specification whose starting date lies before the min bound. -/
def soBadStart : DateSelect :=
  { message := ""
    starting_date := mkDate 2022 12 31
    min_date := some (mkDate 2023 1 1)
    max_date := none
    help_message := none
    validators := []
    marked_dates := none }

/-- A state whose cursor date is marked and deletable. -/
def sMarked : DateSelectPrompt :=
  { baseState (mkDate 2023 6 15) with
      marked_dates := some [(mkDate 2023 6 15, { deletable := true, details := "log entry" })] }

/-- A validator that accepts every date. -/
def alwaysValid : DateValidator :=
  fun _ => Except.ok Validation.Valid

/-- A validator that rejects Sundays with a fixed message. -/
def rejectSundays : DateValidator :=
  fun d =>
    if weekdayNum d = 0 then Except.ok (Validation.Invalid "Weekend days are not allowed")
    else Except.ok Validation.Valid

theorem NaiveDate.leb_iff (a b : NaiveDate) :
    (a.leb b = true) ↔
      (a.year < b.year ∨ (a.year = b.year ∧
        (a.month < b.month ∨ (a.month = b.month ∧ a.day ≤ b.day)))) := by
  simp [NaiveDate.leb]

theorem NaiveDate.leb_refl (a : NaiveDate) : a.leb a = true := by
  simp [NaiveDate.leb_iff]

theorem NaiveDate.leb_trans {a b c : NaiveDate} (h1 : a.leb b = true)
    (h2 : b.leb c = true) : a.leb c = true := by
  rw [NaiveDate.leb_iff] at h1 h2 ⊢
  omega

theorem NaiveDate.leb_total (a b : NaiveDate) :
    a.leb b = true ∨ b.leb a = true := by
  rw [NaiveDate.leb_iff, NaiveDate.leb_iff]
  omega

theorem NaiveDate.ltb_iff (a b : NaiveDate) :
    (a.ltb b = true) ↔ (a.leb b = true ∧ a ≠ b) := by
  simp [NaiveDate.ltb]

theorem NaiveDate.leb_of_ltb_false {a b : NaiveDate} (h : a.ltb b = false) :
    b.leb a = true := by
  rcases eq_or_ne a b with he | hne
  · subst he
    exact NaiveDate.leb_refl a
  · rcases NaiveDate.leb_total a b with h1 | h1
    · exact absurd ((NaiveDate.ltb_iff a b).mpr ⟨h1, hne⟩)
        (by rw [h]; exact Bool.false_ne_true)
    · exact h1

theorem dateMax_right_leb (a b : NaiveDate) : b.leb (dateMax a b) = true := by
  unfold dateMax
  split
  · exact NaiveDate.leb_refl b
  · next h =>
    rcases NaiveDate.leb_total a b with h1 | h1
    · exact absurd h1 h
    · exact h1

theorem dateMin_leb_right (a b : NaiveDate) : (dateMin a b).leb b = true := by
  unfold dateMin
  split
  · exact NaiveDate.leb_refl b
  · next h =>
    exact NaiveDate.leb_of_ltb_false (Bool.not_eq_true _ ▸ h)

theorem dateMin_mono {c : NaiveDate} (a b : NaiveDate) (h1 : c.leb a = true)
    (h2 : c.leb b = true) : c.leb (dateMin a b) = true := by
  unfold dateMin
  split
  · exact h2
  · exact h1

theorem configOrdered_eq {s1 s2 : DateSelectPrompt} (hc : s1.config = s2.config) :
    configOrdered s1 = configOrdered s2 := by
  unfold configOrdered
  rw [hc]

theorem boundsSatisfied_eq {s1 s2 : DateSelectPrompt}
    (hc : s1.config = s2.config) (hd : s1.current_date = s2.current_date) :
    boundsSatisfied s1 = boundsSatisfied s2 := by
  unfold boundsSatisfied
  rw [hc, hd]

theorem update_config (s : DateSelectPrompt) (d : NaiveDate) :
    (s.update_date d).fst.config = s.config := by
  unfold DateSelectPrompt.update_date
  split
  · rfl
  · rfl

theorem update_keeps (s : DateSelectPrompt) (d : NaiveDate)
    (hc : configOrdered s = true) (hb : boundsSatisfied s = true) :
    boundsSatisfied (s.update_date d).fst = true := by
  unfold configOrdered at hc
  unfold DateSelectPrompt.update_date
  split
  · exact hb
  · unfold boundsSatisfied
    cases hmin : s.config.min_date with
    | none =>
      cases hmax : s.config.max_date with
      | none => simp [hmin, hmax]
      | some mx => simp [hmin, hmax, dateMin_leb_right]
    | some m =>
      cases hmax : s.config.max_date with
      | none => simp [hmin, hmax, dateMax_right_leb]
      | some mx =>
        rw [hmin, hmax] at hc
        simp only [hmin, hmax]
        rw [Bool.and_eq_true]
        exact ⟨dateMin_mono _ _ (dateMax_right_leb d m) hc, dateMin_leb_right _ mx⟩

theorem update_ok (s : DateSelectPrompt) (d : NaiveDate)
    (hc : configOrdered s = true) (hb : boundsSatisfied s = true) :
    configOrdered (s.update_date d).fst = true ∧
    boundsSatisfied (s.update_date d).fst = true :=
  ⟨(configOrdered_eq (update_config s d)).trans hc, update_keeps s d hc hb⟩

theorem shift_date_ok (s : DateSelectPrompt) (n : Int)
    (hc : configOrdered s = true) (hb : boundsSatisfied s = true) :
    configOrdered (s.shift_date n).fst = true ∧
    boundsSatisfied (s.shift_date n).fst = true := by
  unfold DateSelectPrompt.shift_date
  exact update_ok s _ hc hb

theorem shift_months_ok (s : DateSelectPrompt) (q : Int)
    (hc : configOrdered s = true) (hb : boundsSatisfied s = true) :
    configOrdered (s.shift_months q).fst = true ∧
    boundsSatisfied (s.shift_months q).fst = true := by
  unfold DateSelectPrompt.shift_months
  dsimp only
  split
  · next nd heq => exact update_ok s nd hc hb
  · exact ⟨hc, hb⟩

theorem request_deletion_ok (s : DateSelectPrompt)
    (hc : configOrdered s = true) (hb : boundsSatisfied s = true) :
    configOrdered (s.request_deletion).fst = true ∧
    boundsSatisfied (s.request_deletion).fst = true := by
  unfold DateSelectPrompt.request_deletion
  split
  · exact ⟨(configOrdered_eq rfl).trans hc, (boundsSatisfied_eq rfl rfl).trans hb⟩
  · exact ⟨hc, hb⟩

theorem handleInner_ok (s : DateSelectPrompt) (a : DateSelectPromptAction)
    (hc : configOrdered s = true) (hb : boundsSatisfied s = true) :
    configOrdered (s.handleInner a).fst = true ∧
    boundsSatisfied (s.handleInner a).fst = true := by
  cases a with
  | GoToPrevWeek => exact shift_date_ok s (-7) hc hb
  | GoToNextWeek => exact shift_date_ok s 7 hc hb
  | GoToPrevDay => exact shift_date_ok s (-1) hc hb
  | GoToNextDay => exact shift_date_ok s 1 hc hb
  | GoToPrevYear => exact shift_months_ok s (-12) hc hb
  | GoToNextYear => exact shift_months_ok s 12 hc hb
  | GoToPrevMonth => exact shift_months_ok s (-1) hc hb
  | GoToNextMonth => exact shift_months_ok s 1 hc hb
  | Delete => exact request_deletion_ok s hc hb
  | ConfirmDelete => exact ⟨hc, hb⟩
  | CancelDelete => exact ⟨hc, hb⟩

theorem stepState_of_handle {s : DateSelectPrompt} {a : DateSelectPromptAction}
    {p : DateSelectPrompt × ActionResult} (h : s.handle a = Except.ok p) :
    stepState s a = p.fst := by
  unfold stepState
  rw [h]

theorem handle_not_pending (s : DateSelectPrompt) (a : DateSelectPromptAction)
    (hp : s.deletion_requested = false) :
    s.handle a = Except.ok (s.handleInner a) := by
  simp [DateSelectPrompt.handle, hp]

theorem handle_pending_confirm (s : DateSelectPrompt)
    (hp : s.deletion_requested = true) :
    s.handle DateSelectPromptAction.ConfirmDelete =
      Except.ok ({ s with error := none, deletion_requested := false, to_delete := true },
        ActionResult.Submit) := by
  simp [DateSelectPrompt.handle, hp]

theorem handle_pending_cancel (s : DateSelectPrompt)
    (hp : s.deletion_requested = true) :
    s.handle DateSelectPromptAction.CancelDelete =
      Except.ok ({ s with error := none, deletion_requested := false },
        ActionResult.NeedsRedraw) := by
  simp [DateSelectPrompt.handle, hp]

theorem handle_pending_other (s : DateSelectPrompt) (a : DateSelectPromptAction)
    (hp : s.deletion_requested = true)
    (h1 : a ≠ DateSelectPromptAction.ConfirmDelete)
    (h2 : a ≠ DateSelectPromptAction.CancelDelete) :
    s.handle a = Except.ok (DateSelectPrompt.handleInner
      { s with error := none, deletion_requested := false } a) := by
  simp [DateSelectPrompt.handle, hp, h1, h2]

theorem step_ok (s : DateSelectPrompt) (a : DateSelectPromptAction)
    (hc : configOrdered s = true) (hb : boundsSatisfied s = true) :
    configOrdered (stepState s a) = true ∧
    boundsSatisfied (stepState s a) = true := by
  cases hp : s.deletion_requested with
  | false =>
    rw [stepState_of_handle (handle_not_pending s a hp)]
    exact handleInner_ok s a hc hb
  | true =>
    by_cases ha1 : a = DateSelectPromptAction.ConfirmDelete
    · subst ha1
      rw [stepState_of_handle (handle_pending_confirm s hp)]
      exact ⟨(configOrdered_eq rfl).trans hc, (boundsSatisfied_eq rfl rfl).trans hb⟩
    · by_cases ha2 : a = DateSelectPromptAction.CancelDelete
      · subst ha2
        rw [stepState_of_handle (handle_pending_cancel s hp)]
        exact ⟨(configOrdered_eq rfl).trans hc, (boundsSatisfied_eq rfl rfl).trans hb⟩
      · rw [stepState_of_handle (handle_pending_other s a hp ha1 ha2)]
        exact handleInner_ok _ a ((configOrdered_eq rfl).trans hc)
          ((boundsSatisfied_eq rfl rfl).trans hb)

theorem run_ok (actions : List DateSelectPromptAction) :
    ∀ (s : DateSelectPrompt), configOrdered s = true → boundsSatisfied s = true →
      configOrdered (runActions s actions) = true ∧
      boundsSatisfied (runActions s actions) = true := by
  induction actions with
  | nil => exact fun s hc hb => ⟨hc, hb⟩
  | cons a rest ih =>
    intro s hc hb
    have h1 := step_ok s a hc hb
    simpa [runActions, List.foldl_cons] using ih (stepState s a) h1.1 h1.2

theorem new_ok (so : DateSelect) (s : DateSelectPrompt)
    (h : DateSelectPrompt.new so = Except.ok s) :
    configOrdered s = true ∧ boundsSatisfied s = true := by
  unfold DateSelectPrompt.new at h
  by_cases h1 : (match so.min_date with
      | some m => so.starting_date.ltb m
      | none => false) = true
  · rw [if_pos h1] at h
    simp at h
  · by_cases h2 : (match so.max_date with
        | some mx => mx.ltb so.starting_date
        | none => false) = true
    · rw [if_neg h1, if_pos h2] at h
      simp at h
    · rw [if_neg h1, if_neg h2] at h
      injection h with h3
      subst h3
      have hmin : ∀ m, so.min_date = some m → m.leb so.starting_date = true := by
        intro m hm
        simp only [hm] at h1
        refine NaiveDate.leb_of_ltb_false ?_
        cases hx : so.starting_date.ltb m
        · rfl
        · exact absurd hx h1
      have hmax : ∀ mx, so.max_date = some mx → so.starting_date.leb mx = true := by
        intro mx hm
        simp only [hm] at h2
        refine NaiveDate.leb_of_ltb_false ?_
        cases hx : mx.ltb so.starting_date
        · rfl
        · exact absurd hx h2
      constructor
      · unfold configOrdered
        cases hm : so.min_date with
        | none => simp [hm]
        | some m =>
          cases hM : so.max_date with
          | none => simp [hm, hM]
          | some mx =>
            simp only [hm, hM]
            exact NaiveDate.leb_trans (hmin m hm) (hmax mx hM)
      · unfold boundsSatisfied
        rw [Bool.and_eq_true]
        constructor
        · cases hm : so.min_date with
          | none => simp [hm]
          | some m => simp only [hm]; exact hmin m hm
        · cases hM : so.max_date with
          | none => simp [hM]
          | some mx => simp only [hM]; exact hmax mx hM

/-- C3: for every successfully constructed date-select prompt and every
sequence of handled actions, the cursor date satisfies whichever of
min_date and max_date are configured. -/
theorem c3_cursor_always_within_bounds (so : DateSelect)
    (s0 : DateSelectPrompt) (h : DateSelectPrompt.new so = Except.ok s0)
    (actions : List DateSelectPromptAction) :
    boundsSatisfied (runActions s0 actions) = true :=
  (run_ok actions s0 (new_ok so s0 h).1 (new_ok so s0 h).2).2

/-- C3 witness: the bounds invariant applied to the bounded example after a
concrete navigation sequence. -/
theorem c3_cursor_always_within_bounds_witness :
    DateSelectPrompt.new soBounded = Except.ok sBounded ∧
    boundsSatisfied (runActions sBounded
      [DateSelectPromptAction.GoToNextYear,
       DateSelectPromptAction.GoToNextWeek,
       DateSelectPromptAction.GoToPrevMonth]) = true :=
  ⟨rfl, c3_cursor_always_within_bounds soBounded sBounded rfl _⟩

/-- C1: the claim says GoToNextMonth from December rolls over to January of
the next year and GoToPrevMonth from 2023-01-15 yields 2022-12-15. The code
wraps the month into the 0..11 range without carrying into the year, so
both navigations stay in the same year: GoToPrevMonth from 2023-01-15
yields 2023-12-15 and GoToNextMonth from 2023-12-15 yields 2023-01-15.
This theorem evaluates the code at those failing inputs. -/
theorem c1_month_shift_no_year_carry :
    (baseState (mkDate 2023 1 15)).handle DateSelectPromptAction.GoToPrevMonth
      = Except.ok ({ baseState (mkDate 2023 1 15) with
            current_date := mkDate 2023 12 15 }, ActionResult.NeedsRedraw) ∧
    (baseState (mkDate 2023 12 15)).handle DateSelectPromptAction.GoToNextMonth
      = Except.ok ({ baseState (mkDate 2023 12 15) with
            current_date := mkDate 2023 1 15 }, ActionResult.NeedsRedraw) :=
  ⟨rfl, rfl⟩

/-- C2 counterexample: in a deletion-confirmation-pending state, handling
the navigation action GoToNextDay does NOT leave the state unchanged
except for the pending flag: the cursor moves from 2023-06-15 to
2023-06-16, refuting the claim at this concrete input. -/
theorem c2_pending_navigation_counterexample :
    pendingEx.deletion_requested = true ∧
    pendingEx.current_date = mkDate 2023 6 15 ∧
    (stepState pendingEx DateSelectPromptAction.GoToNextDay).current_date
      = mkDate 2023 6 16 ∧
    mkDate 2023 6 16 ≠ mkDate 2023 6 15 :=
  ⟨rfl, rfl, rfl, by decide⟩

/-- C2 (amended): while the deletion-confirmation flag is pending, handling
any semantic action other than ConfirmDelete or CancelDelete clears the
pending flag and the error message and then processes the action exactly as
the normal (non-pending) dispatch would on that cleared state, so
navigation can still move the cursor and Delete can start a new request. -/
theorem c2_pending_clears_then_processes (s : DateSelectPrompt)
    (a : DateSelectPromptAction) (hp : s.deletion_requested = true)
    (h1 : a ≠ DateSelectPromptAction.ConfirmDelete)
    (h2 : a ≠ DateSelectPromptAction.CancelDelete) :
    s.handle a = Except.ok (DateSelectPrompt.handleInner
      { s with error := none, deletion_requested := false } a) := by
  simp [DateSelectPrompt.handle, hp, h1, h2]

/-- C2 witness: the amended statement applied in the pending example state
to the navigation action GoToNextDay. -/
theorem c2_pending_clears_then_processes_witness :
    pendingEx.deletion_requested = true ∧
    pendingEx.handle DateSelectPromptAction.GoToNextDay
      = Except.ok (DateSelectPrompt.handleInner
          { pendingEx with error := none, deletion_requested := false }
          DateSelectPromptAction.GoToNextDay) :=
  ⟨rfl, c2_pending_clears_then_processes pendingEx
    DateSelectPromptAction.GoToNextDay rfl (by decide) (by decide)⟩

/-- C4: from cursor 2023-06-15 with bounds [2023-01-01, 2023-12-31],
GoToNextYear computes the candidate 2024-06-15 by calendar arithmetic and
then clamps it to the max bound, leaving the cursor exactly at 2023-12-31
with a NeedsRedraw result (not a no-op at 2023-06-15). -/
theorem c4_next_year_clamps_to_max :
    DateSelectPrompt.new soBounded = Except.ok sBounded ∧
    ((mkDate 2023 6 15).with_month0 5).bind (fun d2 => d2.with_year 2024)
      = some (mkDate 2024 6 15) ∧
    sBounded.handle DateSelectPromptAction.GoToNextYear
      = Except.ok ({ sBounded with current_date := mkDate 2023 12 31 },
          ActionResult.NeedsRedraw) ∧
    mkDate 2023 12 31 ≠ mkDate 2023 6 15 :=
  ⟨rfl, rfl, rfl, by decide⟩

/-- C5: the validation pipeline runs validators in order and
short-circuits: after a prefix of Valid results, the first validator that
returns Invalid determines the result and the validators after it are
irrelevant; a custom validator error aborts with InquireError.Custom
immediately. Concretely, the chain [alwaysValid, rejectSundays] on the
Sunday 2023-01-15 returns Invalid with the second validator's message. -/
theorem c5_validation_short_circuit :
    (∀ (vs1 : List DateValidator) (v : DateValidator)
        (vs2 : List DateValidator) (d : NaiveDate) (msg : String),
      (∀ u ∈ vs1, u d = Except.ok Validation.Valid) →
      v d = Except.ok (Validation.Invalid msg) →
      validateList (vs1 ++ v :: vs2) d = Except.ok (Validation.Invalid msg)) ∧
    (∀ (vs1 : List DateValidator) (v : DateValidator)
        (vs2 : List DateValidator) (d : NaiveDate) (err : String),
      (∀ u ∈ vs1, u d = Except.ok Validation.Valid) →
      v d = Except.error err →
      validateList (vs1 ++ v :: vs2) d = Except.error (InquireError.Custom err)) ∧
    validateList [alwaysValid, rejectSundays] (mkDate 2023 1 15)
      = Except.ok (Validation.Invalid "Weekend days are not allowed") := by
  refine ⟨?_, ?_, ?_⟩
  · intro vs1 v vs2 d msg hall hv
    induction vs1 with
    | nil => simp [validateList, hv]
    | cons u rest ih =>
      have hu : u d = Except.ok Validation.Valid := hall u (by simp)
      simp only [List.cons_append, validateList, hu]
      exact ih (fun x hx => hall x (by simp [hx]))
  · intro vs1 v vs2 d err hall hv
    induction vs1 with
    | nil => simp [validateList, hv]
    | cons u rest ih =>
      have hu : u d = Except.ok Validation.Valid := hall u (by simp)
      simp only [List.cons_append, validateList, hu]
      exact ih (fun x hx => hall x (by simp [hx]))
  · rfl

/-- C5 witness: the short-circuit statement applied to the concrete chain
[alwaysValid, rejectSundays] on the Sunday 2023-01-15. -/
theorem c5_validation_short_circuit_witness :
    validateList ([alwaysValid] ++ rejectSundays :: []) (mkDate 2023 1 15)
      = Except.ok (Validation.Invalid "Weekend days are not allowed") :=
  c5_validation_short_circuit.1 [alwaysValid] rejectSundays [] (mkDate 2023 1 15)
    "Weekend days are not allowed"
    (by intro u hu; simp at hu; subst hu; rfl) (by rfl)

/-- C6: constructing a date-select prompt with a starting date outside the
declared bounds fails with an InvalidConfiguration error; for every
in-bounds starting date, construction succeeds with the cursor equal to the
starting date (no silent clamping). -/
theorem c6_construction_bounds_check (so : DateSelect) :
    (outOfBoundsStart so = true →
      ∃ msg, DateSelectPrompt.new so
        = Except.error (InquireError.InvalidConfiguration msg)) ∧
    (outOfBoundsStart so = false →
      ∃ s, DateSelectPrompt.new so = Except.ok s ∧
        s.current_date = so.starting_date) := by
  unfold outOfBoundsStart DateSelectPrompt.new
  constructor
  · intro h
    rw [Bool.or_eq_true] at h
    by_cases h1 : (match so.min_date with
        | some m => so.starting_date.ltb m
        | none => false) = true
    · rw [if_pos h1]
      exact ⟨_, rfl⟩
    · have h2 : (match so.max_date with
          | some mx => mx.ltb so.starting_date
          | none => false) = true := by
        rcases h with h | h
        · exact absurd h h1
        · exact h
      rw [if_neg h1, if_pos h2]
      exact ⟨_, rfl⟩
  · intro h
    rw [Bool.or_eq_false_iff] at h
    rw [if_neg (by rw [h.1]; exact Bool.false_ne_true),
        if_neg (by rw [h.2]; exact Bool.false_ne_true)]
    exact ⟨_, rfl, rfl⟩

/-- C6 witness: a starting date before the min bound is rejected, and the
in-bounds specification soBounded constructs with cursor 2023-06-15. -/
theorem c6_construction_bounds_check_witness :
    outOfBoundsStart soBadStart = true ∧
    (∃ msg, DateSelectPrompt.new soBadStart
      = Except.error (InquireError.InvalidConfiguration msg)) ∧
    outOfBoundsStart soBounded = false ∧
    (∃ s, DateSelectPrompt.new soBounded = Except.ok s ∧
      s.current_date = soBounded.starting_date) :=
  ⟨rfl, (c6_construction_bounds_check soBadStart).1 rfl, rfl,
    (c6_construction_bounds_check soBounded).2 rfl⟩

/-- C7: a delete request on a cursor date that is absent from the
marked-date index or not deletable changes nothing and reports Clean; on a
present, deletable date it sets the pending flag, installs the yes/no
confirmation message embedding the cursor date, and reports NeedsRedraw. -/
theorem c7_request_deletion_behavior (s : DateSelectPrompt) :
    (deletionAllowed s = false →
      s.request_deletion = (s, ActionResult.Clean)) ∧
    (deletionAllowed s = true →
      s.request_deletion =
        ({ s with
            deletion_requested := true
            error := some (confirmationMessage s.current_date) },
          ActionResult.NeedsRedraw)) := by
  unfold DateSelectPrompt.request_deletion deletionAllowed
  constructor <;> intro h <;> simp only [h] <;> simp

/-- C7 witness: the deletable-date branch applied to the state sMarked,
whose cursor date is marked and deletable. -/
theorem c7_request_deletion_behavior_witness :
    deletionAllowed sMarked = true ∧
    sMarked.request_deletion =
      ({ sMarked with
          deletion_requested := true
          error := some (confirmationMessage sMarked.current_date) },
        ActionResult.NeedsRedraw) :=
  ⟨rfl, (c7_request_deletion_behavior sMarked).2 rfl⟩

/-- C8: submission validates the current cursor date; a Valid outcome
yields an output carrying exactly the cursor date and the delete-intent
flag with the state untouched, an Invalid outcome yields no answer and
stores the validator's message as the current error, leaving the cursor
date and the delete-intent flag unchanged. -/
theorem c8_submit_behavior (s : DateSelectPrompt) :
    (s.validate_current_answer = Except.ok Validation.Valid →
      s.submit = Except.ok (s,
        some { date := s.current_date, to_delete := s.to_delete })) ∧
    (∀ msg, s.validate_current_answer = Except.ok (Validation.Invalid msg) →
      s.submit = Except.ok ({ s with error := some msg }, none)) := by
  unfold DateSelectPrompt.submit
  constructor
  · intro h
    rw [h]
    rfl
  · intro msg h
    rw [h]

/-- C8 witness: the Valid branch applied to a validator-free state at
cursor 2023-06-15. -/
theorem c8_submit_behavior_witness :
    (baseState (mkDate 2023 6 15)).validate_current_answer
      = Except.ok Validation.Valid ∧
    (baseState (mkDate 2023 6 15)).submit
      = Except.ok (baseState (mkDate 2023 6 15),
          some { date := mkDate 2023 6 15, to_delete := false }) :=
  ⟨rfl, (c8_submit_behavior (baseState (mkDate 2023 6 15))).1 rfl⟩

theorem isValidYMD_iff (y : Int) (m d : Nat) :
    isValidYMD y m d = true ↔
      (MIN_YEAR ≤ y ∧ y ≤ MAX_YEAR ∧
        1 ≤ m ∧ m ≤ 12 ∧ 1 ≤ d ∧ d ≤ daysInMonth y m) := by
  simp [isValidYMD, and_assoc]

theorem isLeap_of_pred (y : Int) (h : isLeap y = true) :
    isLeap (y + -1) = false := by
  have h4 : y % 4 = 0 := by
    simp only [isLeap, Bool.and_eq_true, decide_eq_true_eq] at h
    exact h.1
  cases hL : isLeap (y + -1) with
  | false => rfl
  | true =>
    have h4b : (y + -1) % 4 = 0 := by
      simp only [isLeap, Bool.and_eq_true, decide_eq_true_eq] at hL
      exact hL.1
    omega

theorem daysInMonth_ne_two (y1 y2 : Int) (m : Nat) (hm : m ≠ 2) :
    daysInMonth y1 m = daysInMonth y2 m := by
  unfold daysInMonth
  rw [if_neg hm, if_neg hm]

theorem validYMD_year_succ_fail (y : Int) (m d : Nat)
    (hy : y + 1 ≤ MAX_YEAR)
    (h1 : isValidYMD y m d = true) (h2 : isValidYMD (y + 1) m d = false) :
    isValidYMD (y + -1) m d = false := by
  obtain ⟨hy1, hy2, hm1, hm2, hd1, hd4⟩ := (isValidYMD_iff _ _ _).mp h1
  have hy1b : MIN_YEAR ≤ y + 1 := by omega
  by_cases hm : m = 2
  · subst hm
    have hgt : ¬(d ≤ daysInMonth (y + 1) 2) := by
      intro hle
      have ht : isValidYMD (y + 1) 2 d = true :=
        (isValidYMD_iff _ _ _).mpr ⟨hy1b, hy, hm1, hm2, hd1, hle⟩
      rw [ht] at h2
      exact Bool.noConfusion h2
    have h28 : 28 ≤ daysInMonth (y + 1) 2 := by
      cases hL : isLeap (y + 1) <;> simp [daysInMonth, hL]
    have hd29 : d = 29 ∧ isLeap y = true := by
      cases hLy : isLeap y with
      | false =>
        have he : daysInMonth y 2 = 28 := by simp [daysInMonth, hLy]
        omega
      | true =>
        have he : daysInMonth y 2 = 29 := by simp [daysInMonth, hLy]
        exact ⟨by omega, rfl⟩
    have hLp : isLeap (y + -1) = false := isLeap_of_pred y hd29.2
    have h28p : daysInMonth (y + -1) 2 = 28 := by simp [daysInMonth, hLp]
    cases hval : isValidYMD (y + -1) 2 d with
    | false => rfl
    | true =>
      obtain ⟨_, _, _, _, _, hle⟩ := (isValidYMD_iff _ _ _).mp hval
      omega
  · exfalso
    have heq : daysInMonth (y + 1) m = daysInMonth y m :=
      daysInMonth_ne_two _ _ m hm
    have ht : isValidYMD (y + 1) m d = true :=
      (isValidYMD_iff _ _ _).mpr ⟨hy1b, hy, hm1, hm2, hd1, by rw [heq]; exact hd4⟩
    rw [ht] at h2
    exact Bool.noConfusion h2

theorem update_date_no_bounds (s : DateSelectPrompt) (d : NaiveDate)
    (hmin : s.config.min_date = none) (hmax : s.config.max_date = none)
    (hne : ¬(s.current_date = d)) :
    s.update_date d = ({ s with current_date := d }, ActionResult.NeedsRedraw) := by
  unfold DateSelectPrompt.update_date
  rw [if_neg hne]
  simp only [hmin, hmax]

theorem shift_months_yearonly (s : DateSelectPrompt) (q dy : Int)
    (h1 : q.tdiv 12 = dy) (h2 : q.tmod 12 = 0) (hv : s.current_date.Valid) :
    s.shift_months q =
      (if isValidYMD (s.current_date.year + dy) s.current_date.month
          s.current_date.day then
        s.update_date { s.current_date with year := s.current_date.year + dy }
      else (s, ActionResult.Clean)) := by
  obtain ⟨hy1, hy2, hm1, hm2, hd1, hd4⟩ := (isValidYMD_iff _ _ _).mp hv
  have hvE : isValidYMD s.current_date.year s.current_date.month
      s.current_date.day = true := hv
  unfold DateSelectPrompt.shift_months
  dsimp only
  rw [h1, h2]
  have e1 : ((s.current_date.month : Int) - 1 + 0).tmod 12
      = (s.current_date.month : Int) - 1 := by
    rw [add_zero, Int.tmod_eq_emod (by omega) (by norm_num)]
    exact Int.emod_eq_of_lt (by omega) (by omega)
  rw [e1, if_neg (by omega : ¬((s.current_date.month : Int) - 1 < 0))]
  have e2 : ((s.current_date.month : Int) - 1).toNat = s.current_date.month - 1 := by
    omega
  rw [e2]
  unfold NaiveDate.with_month0
  dsimp only
  have e3 : s.current_date.month - 1 + 1 = s.current_date.month := by omega
  rw [e3]
  have e4 : { s.current_date with month := s.current_date.month } = s.current_date := rfl
  rw [e4, if_pos hvE]
  unfold NaiveDate.with_year
  dsimp only [Option.some_bind]
  by_cases hcond : isValidYMD (s.current_date.year + dy) s.current_date.month
      s.current_date.day = true
  · rw [if_pos hcond, if_pos hcond]
  · rw [if_neg hcond, if_neg hcond]

theorem NaiveDate.ext_ymd {a b : NaiveDate} (hy : a.year = b.year)
    (hm : a.month = b.month) (hd : a.day = b.day) : a = b := by
  cases a
  cases b
  simp_all

theorem update_date_cd_no_bounds (s : DateSelectPrompt) (d : NaiveDate)
    (hmin : s.config.min_date = none) (hmax : s.config.max_date = none) :
    (s.update_date d).fst.current_date = d := by
  unfold DateSelectPrompt.update_date
  split
  · next h => exact h
  · simp only [hmin, hmax]

theorem shift_months_config (s : DateSelectPrompt) (q : Int) :
    (s.shift_months q).fst.config = s.config := by
  unfold DateSelectPrompt.shift_months
  dsimp only
  split
  · next nd heq => exact update_config s nd
  · rfl

theorem shift_months_yearonly_cd (s : DateSelectPrompt) (q dy : Int)
    (h1 : q.tdiv 12 = dy) (h2 : q.tmod 12 = 0)
    (hmin : s.config.min_date = none) (hmax : s.config.max_date = none)
    (hv : s.current_date.Valid) :
    (s.shift_months q).fst.current_date =
      (if isValidYMD (s.current_date.year + dy) s.current_date.month
          s.current_date.day then
        { s.current_date with year := s.current_date.year + dy }
      else s.current_date) := by
  rw [shift_months_yearonly s q dy h1 h2 hv]
  by_cases hcond : isValidYMD (s.current_date.year + dy) s.current_date.month
      s.current_date.day = true
  · rw [if_pos hcond, if_pos hcond]
    exact update_date_cd_no_bounds s _ hmin hmax
  · rw [if_neg hcond, if_neg hcond]

/-- C9 counterexample: at the representable cursor date 262143-06-15
(MAX_YEAR-06-15), with no bounds configured so that no clamping can occur,
the forward 12-month shift hits chrono's year limit (with_year returns None)
and is a Clean no-op, while the backward shift succeeds; the roundtrip lands
on 262142-06-15, not on the original date, refuting the claim as stated. -/
theorem c9_shift_twelve_roundtrip_counterexample :
    (baseState (mkDate 262143 6 15)).config.min_date = none ∧
    (baseState (mkDate 262143 6 15)).config.max_date = none ∧
    (baseState (mkDate 262143 6 15)).current_date.Valid ∧
    ((((baseState (mkDate 262143 6 15)).shift_months 12).fst).shift_months
        (-12)).fst.current_date = mkDate 262142 6 15 ∧
    mkDate 262142 6 15 ≠ mkDate 262143 6 15 :=
  ⟨rfl, rfl, rfl, rfl, by decide⟩

/-- C9 (amended): from any valid (chrono-representable) cursor date whose
successor year is still within chrono's representable range
(year + 1 ≤ MAX_YEAR), with no bounds configured (so that no clamping can
occur), shifting forward 12 months and then backward 12 months returns the
cursor to the original date; this includes the Feb 29 cases in which both
shifts are Clean no-ops. -/
theorem c9_shift_twelve_roundtrip (s : DateSelectPrompt)
    (hmin : s.config.min_date = none) (hmax : s.config.max_date = none)
    (hv : s.current_date.Valid)
    (hyMax : s.current_date.year + 1 ≤ MAX_YEAR) :
    (((s.shift_months 12).fst).shift_months (-12)).fst.current_date
      = s.current_date := by
  have hvE : isValidYMD s.current_date.year s.current_date.month
      s.current_date.day = true := hv
  have hmin2 : (s.shift_months 12).fst.config.min_date = none := by
    rw [shift_months_config s 12]
    exact hmin
  have hmax2 : (s.shift_months 12).fst.config.max_date = none := by
    rw [shift_months_config s 12]
    exact hmax
  have hcd := shift_months_yearonly_cd s 12 1 (by decide) (by decide) hmin hmax hv
  by_cases hval : isValidYMD (s.current_date.year + 1) s.current_date.month
      s.current_date.day = true
  · rw [if_pos hval] at hcd
    have hYr : (s.shift_months 12).fst.current_date.year
        = s.current_date.year + 1 := by rw [hcd]
    have hMo : (s.shift_months 12).fst.current_date.month
        = s.current_date.month := by rw [hcd]
    have hDa : (s.shift_months 12).fst.current_date.day
        = s.current_date.day := by rw [hcd]
    have hv2 : (s.shift_months 12).fst.current_date.Valid := by
      rw [NaiveDate.Valid, hYr, hMo, hDa]
      exact hval
    have hcd2 := shift_months_yearonly_cd (s.shift_months 12).fst (-12) (-1)
      (by decide) (by decide) hmin2 hmax2 hv2
    rw [hcd2, hYr, hMo, hDa]
    have e5 : s.current_date.year + 1 + -1 = s.current_date.year := by omega
    rw [e5, if_pos hvE]
    exact NaiveDate.ext_ymd rfl hMo hDa
  · rw [if_neg hval] at hcd
    have hv2 : (s.shift_months 12).fst.current_date.Valid := by
      rw [NaiveDate.Valid, hcd]
      exact hvE
    have hcd2 := shift_months_yearonly_cd (s.shift_months 12).fst (-12) (-1)
      (by decide) (by decide) hmin2 hmax2 hv2
    rw [hcd2, hcd]
    have hfail : isValidYMD (s.current_date.year + -1) s.current_date.month
        s.current_date.day = false := by
      refine validYMD_year_succ_fail _ _ _ hyMax hvE ?_
      cases hx : isValidYMD (s.current_date.year + 1) s.current_date.month
          s.current_date.day with
      | false => rfl
      | true => exact absurd hx hval
    rw [if_neg (by rw [hfail]; exact Bool.false_ne_true)]

/-- C9 witness: the amended roundtrip applied to the leap day 2020-02-29 in
an unbounded state, where the forward shift is a Clean no-op. -/
theorem c9_shift_twelve_roundtrip_witness :
    (baseState (mkDate 2020 2 29)).config.min_date = none ∧
    (baseState (mkDate 2020 2 29)).config.max_date = none ∧
    (baseState (mkDate 2020 2 29)).current_date.Valid ∧
    (baseState (mkDate 2020 2 29)).current_date.year + 1 ≤ MAX_YEAR ∧
    ((((baseState (mkDate 2020 2 29)).shift_months 12).fst).shift_months
        (-12)).fst.current_date = mkDate 2020 2 29 :=
  ⟨rfl, rfl, rfl, by decide,
    c9_shift_twelve_roundtrip (baseState (mkDate 2020 2 29)) rfl rfl rfl
      (by decide)⟩

/-- C10: update_date decides its result before clamping: it reports Clean
exactly when the pre-clamp candidate equals the current cursor; with the
cursor at the max bound 2023-12-31, GoToNextDay computes 2024-01-01, clamps
back to 2023-12-31, and still reports NeedsRedraw with the visible cursor
unchanged. -/
theorem c10_clean_iff_candidate_equals_cursor :
    (∀ (s : DateSelectPrompt) (d : NaiveDate),
      (s.update_date d).snd = ActionResult.Clean ↔ s.current_date = d) ∧
    atMaxState.current_date = mkDate 2023 12 31 ∧
    atMaxState.config.max_date = some (mkDate 2023 12 31) ∧
    atMaxState.handle DateSelectPromptAction.GoToNextDay
      = Except.ok (atMaxState, ActionResult.NeedsRedraw) := by
  refine ⟨?_, rfl, rfl, rfl⟩
  intro s d
  unfold DateSelectPrompt.update_date
  split
  · next h => simp [h]
  · next h => simp [h]

end Spec2Proof
